import Mathlib

/-!
Verification development for `cdv/cmds/sim.py` of chia-dev-tools: the `cdv sim`
command group (create / start / stop / status / revert / farm / autofarm).

Each click command body is embedded as a pure Lean function over explicit
inputs.  External collaborators (`async_config_wizard`, `start_async`,
`async_stop`, `execute_with_simulator`, `load_config`, the interactive
`input()` read) are modelled at their call boundary: a call is recorded as an
`Event` in the command's trace, the string returned by `input()` is an explicit
argument, and the status returned by `async_stop` / `start_async` is an
explicit argument.  A command's result is its ordered event trace together
with the value passed to `sys.exit` (`none` when the function falls through
and returns normally).
-/

/-- Python truthiness of an `Optional[int]`: `None` and `0` are falsy. -/
def truthyInt : Option Int → Bool
  | none => false
  | some n => n != 0

/-- Python truthiness of an `Optional[str]`: `None` and the empty string are falsy. -/
def truthyStr : Option String → Bool
  | none => false
  | some s => s != ""

/-- Observable effects of one command invocation, in program order. -/
inductive Event where
  /-- a `print(s)` call -/
  | print (s : String)
  /-- the prompt string displayed by `input(s)` -/
  | prompt (s : String)
  /-- `load_config(root_path, file_name)` -/
  | loadConfig (rootPath fileName : String)
  /-- `async_config_wizard(root_path, fingerprint, reward_address, plot_directory, mnemonic, auto_farm, docker_mode, bitfield)` -/
  | wizard (rootPath : String) (fingerprint : Option Int)
      (rewardAddress plotDirectory mnemonic : Option String)
      (autoFarm : Option Bool) (dockerMode bitfield : Bool)
  /-- `start_async(root_path, group, restart)` -/
  | startServices (rootPath : String) (group : List String) (restart : Bool)
  /-- `async_stop(root_path, config, group, daemon)` -/
  | stopServices (rootPath : String) (group : List String) (daemon : Bool)
  /-- `execute_with_simulator(rpc_port, root_path, print_status, True, ...)` -/
  | statusRpc (rpcPort : Option Int) (rootPath : String) (fingerprint : Option Int)
      (showKey showCoins includeRewards showAddresses : Bool)
  /-- `execute_with_simulator(rpc_port, root_path, revert_block_height, True, ...)` -/
  | revertRpc (rpcPort : Option Int) (rootPath : String) (blocks newBlocks : Int)
      (reset force : Bool)
  /-- `execute_with_simulator(rpc_port, root_path, farm_blocks, True, ...)` -/
  | farmRpc (rpcPort : Option Int) (rootPath : String) (blocks : Int)
      (asTransactionBlock : Bool) (targetAddress : String)
  /-- `execute_with_simulator(rpc_port, root_path, set_auto_farm, True, ...)` -/
  | autofarmRpc (rpcPort : Option Int) (rootPath : String) (autofarm : Bool)
  deriving DecidableEq

/-- Result of running one command body: its event trace and the value passed to
`sys.exit` (`none` when the function returned normally without calling it). -/
structure CmdResult where
  events : List Event
  exit : Option Int
  deriving DecidableEq

/-- The `ctx.obj` dictionary populated by the `sim` group callback. -/
structure CtxObj where
  root_path : String
  sim_name : String
  rpc_port : Option Int
  deriving DecidableEq

/-- click default of the top-level `-n, --simulator_name` option. -/
def simulator_name_default : String := "main"

/-- click default of the top-level `-p, --rpc-port` option (absent). -/
def rpc_port_default : Option Int := none

/-- `sim_cmd`: the group callback.  `ctx.obj["root_path"] = Path(root_path) / simulator_name`;
the name and the rpc-port override are stored unchanged.  Path join is modelled
as concatenation with a single separator. -/
def sim_cmd (rpc_port : Option Int) (root_path : String) (simulator_name : String) : CtxObj :=
  { root_path := root_path ++ "/" ++ simulator_name
    sim_name := simulator_name
    rpc_port := rpc_port }

/-- The message printed when both a fingerprint and a mnemonic are given. -/
def chooseOneMsg : String :=
  "You can\x27t use both a fingerprint and a mnemonic. Please choose one."

/-- `create_simulator_config`: prints the directory header, rejects when
`fingerprint and mnemonic` is truthy, otherwise runs the wizard. -/
def create_simulator_config (ctx : CtxObj) (fingerprint : Option Int)
    (reward_address plot_directory mnemonic : Option String)
    (auto_farm : Option Bool) (docker_mode no_bitfield : Bool) : CmdResult :=
  let header := Event.print ("Using this Directory: " ++ ctx.root_path ++ "\n")
  if truthyInt fingerprint && truthyStr mnemonic then
    { events := [header, Event.print chooseOneMsg], exit := none }
  else
    { events := [header,
        Event.wizard ctx.root_path fingerprint reward_address plot_directory mnemonic
          auto_farm docker_mode (!no_bitfield)],
      exit := none }

/-- `start_cmd`: builds the service group and calls `start_async`; the value
returned by `start_async` (final argument) is discarded. -/
def start_cmd (ctx : CtxObj) (restart wallet : Bool) (_start_status : Option Int) : CmdResult :=
  let group : List String := if wallet then ["simulator", "wallet"] else ["simulator"]
  { events := [Event.startServices ctx.root_path group restart], exit := none }

/-- `stop_cmd`: loads the config, builds the service group, and passes the
status returned by `async_stop` (final argument) to `sys.exit`. -/
def stop_cmd (ctx : CtxObj) (daemon wallet : Bool) (stop_status : Int) : CmdResult :=
  let group : List String := if wallet then ["simulator", "wallet"] else ["simulator"]
  { events := [Event.loadConfig ctx.root_path "config.yaml",
               Event.stopServices ctx.root_path group daemon],
    exit := some stop_status }

/-- `status_cmd`: a single `execute_with_simulator` call with `print_status`. -/
def status_cmd (ctx : CtxObj) (fingerprint : Option Int)
    (show_key show_coins include_rewards show_addresses : Bool) : CmdResult :=
  { events := [Event.statusRpc ctx.rpc_port ctx.root_path fingerprint
      show_key show_coins include_rewards show_addresses],
    exit := none }

/-- click default of the `-b, --blocks` option of `revert`. -/
def revert_blocks_default : Int := 1

/-- click default of the `-n, --new_blocks` option of `revert`. -/
def revert_new_blocks_default : Int := 1

/-- The prompt displayed by `input(...)` in the force branch of `revert`. -/
def forcePromptMsg : String :=
  "Are you sure you want to force delete blocks? This should only ever be used in special circumstances, and will break all wallets. \nPress \x27y\x27 to continue, or any other button to exit: "

/-- The message printed when `reset` is combined with a non-default `blocks`. -/
def resetBlocksMsg : String :=
  "\nBlocks, \x27-b\x27 must not be set if all blocks are selected by reset, \x27-r\x27. Exiting.\n"

/-- `revert_cmd`: confirmation prompt first (when `force` without
`disable_prompt`), then the reset/blocks mutual-exclusion check, then the RPC
call.  `user_input` is the string returned by `input()`. -/
def revert_cmd (ctx : CtxObj) (blocks new_blocks : Int) (reset force disable_prompt : Bool)
    (user_input : String) : CmdResult :=
  let promptEvents : List Event :=
    if force && !disable_prompt then [Event.prompt forcePromptMsg] else []
  if force && !disable_prompt && user_input != "y" then
    { events := promptEvents, exit := none }
  else if reset && blocks != 1 then
    { events := promptEvents ++ [Event.print resetBlocksMsg], exit := none }
  else
    { events := promptEvents ++
        [Event.revertRpc ctx.rpc_port ctx.root_path blocks new_blocks reset force],
      exit := none }

/-- click default of the `-b, --blocks` option of `farm`. -/
def farm_blocks_default : Int := 1

/-- `farm_cmd`: a single `execute_with_simulator` call with `farm_blocks`;
the transaction-block flag passed is `not non_transaction`. -/
def farm_cmd (ctx : CtxObj) (blocks : Int) (non_transaction : Bool)
    (target_address : String) : CmdResult :=
  { events := [Event.farmRpc ctx.rpc_port ctx.root_path blocks (!non_transaction)
      target_address],
    exit := none }

/-- `autofarm_cmd`: converts the `on`/`off` argument to a boolean and makes a
single `execute_with_simulator` call with `set_auto_farm`. -/
def autofarm_cmd (ctx : CtxObj) (set_autofarm : String) : CmdResult :=
  let autofarm : Bool := set_autofarm == "on"
  { events := [Event.autofarmRpc ctx.rpc_port ctx.root_path autofarm], exit := none }

/-- Is this event an `async_config_wizard` call? -/
def Event.isWizardCall : Event → Bool
  | Event.wizard .. => true
  | _ => false

/-- Is this event an `execute_with_simulator` call (any action)? -/
def Event.isRpcCall : Event → Bool
  | Event.statusRpc .. => true
  | Event.revertRpc .. => true
  | Event.farmRpc .. => true
  | Event.autofarmRpc .. => true
  | _ => false

/-- Is this event user-visible terminal output (a print or an input prompt)? -/
def Event.isUserVisible : Event → Bool
  | Event.print _ => true
  | Event.prompt _ => true
  | _ => false

/-- The invocation made at least one `async_config_wizard` call. -/
def callsWizard (r : CmdResult) : Bool := r.events.any Event.isWizardCall

/-- The invocation made at least one `execute_with_simulator` call. -/
def callsRpc (r : CmdResult) : Bool := r.events.any Event.isRpcCall

/-- The invocation produced at least one user-visible line of output. -/
def hasUserVisibleOutput (r : CmdResult) : Bool := r.events.any Event.isUserVisible

/-- The block count of the first `farm_blocks` RPC call, if any. -/
def farmRpcBlocks : Event → Option Int
  | Event.farmRpc _ _ b _ _ => some b
  | _ => none

/-- The block count forwarded to the Farm action by an invocation, if any. -/
def farmForwardedBlocks (r : CmdResult) : Option Int :=
  r.events.findSome? farmRpcBlocks

/-- The transaction-block flag of the first `farm_blocks` RPC call, if any. -/
def farmRpcAsTx : Event → Option Bool
  | Event.farmRpc _ _ _ tx _ => some tx
  | _ => none

/-- The `as_transaction_block` flag forwarded to the Farm action, if any. -/
def farmForwardedAsTransaction (r : CmdResult) : Option Bool :=
  r.events.findSome? farmRpcAsTx

/-- A concrete session context used by concrete-input theorems. -/
def ctx0 : CtxObj := sim_cmd none "simulator-root" "main"

/-- Claim C1 counterexample: "both fingerprint and mnemonic non-null implies
the create command rejects and the wizard is never invoked" is false: at
fingerprint `some 0` and mnemonic `some "x"` (both non-null) the truthiness
test `fingerprint and mnemonic` is false, so the wizard is invoked. -/
theorem create_both_nonnull_rejects_cex :
    ¬ ∀ (f : Option Int) (m ra pd : Option String) (af : Option Bool) (dm nb : Bool),
        f ≠ none → m ≠ none →
        callsWizard (create_simulator_config ctx0 f ra pd m af dm nb) = false := by
  intro h
  exact absurd (h (some 0) (some "x") none none none false false (by decide) (by decide))
    (by decide)

/-- Claim C1 (amended): when the fingerprint is truthy (non-null and nonzero)
and the mnemonic is truthy (non-null and nonempty), the create command rejects
locally: it prints the choose-one message and the Provisioning Wizard
(`async_config_wizard`) is never invoked. -/
theorem create_rejects_when_both_truthy (ctx : CtxObj) (f : Option Int)
    (ra pd m : Option String) (af : Option Bool) (dm nb : Bool)
    (hf : truthyInt f = true) (hm : truthyStr m = true) :
    callsWizard (create_simulator_config ctx f ra pd m af dm nb) = false ∧
    Event.print chooseOneMsg ∈ (create_simulator_config ctx f ra pd m af dm nb).events := by
  simp [create_simulator_config, hf, hm, callsWizard, Event.isWizardCall]

/-- Witness for `create_rejects_when_both_truthy` at fingerprint 7 and a
nonempty mnemonic. -/
theorem create_rejects_when_both_truthy_witness :
    callsWizard (create_simulator_config ctx0 (some 7) none none (some "word list") none false false) = false ∧
    Event.print chooseOneMsg ∈
      (create_simulator_config ctx0 (some 7) none none (some "word list") none false false).events :=
  create_rejects_when_both_truthy ctx0 (some 7) none none (some "word list") none false false
    (by decide) (by decide)

/-- Claim C2: every revert invocation with `reset = true` and `blocks ≠ 1` is
rejected locally: `execute_with_simulator` is never invoked, and the user sees
at least one line of output (the mutual-exclusion message, or, when a declined
force prompt aborts first, the prompt itself). -/
theorem revert_reset_nondefault_blocks_no_rpc (ctx : CtxObj) (blocks new_blocks : Int)
    (force disable_prompt : Bool) (user_input : String) (hb : blocks ≠ 1) :
    callsRpc (revert_cmd ctx blocks new_blocks true force disable_prompt user_input) = false ∧
    hasUserVisibleOutput (revert_cmd ctx blocks new_blocks true force disable_prompt user_input) = true := by
  simp only [revert_cmd, callsRpc, hasUserVisibleOutput]
  split
  · simp_all [Event.isRpcCall, Event.isUserVisible]
  · split
    · split <;> simp [Event.isRpcCall, Event.isUserVisible]
    · simp_all

/-- Witness for `revert_reset_nondefault_blocks_no_rpc` at `blocks = 5`. -/
theorem revert_reset_nondefault_blocks_no_rpc_witness :
    callsRpc (revert_cmd ctx0 5 1 true false false "") = false ∧
    hasUserVisibleOutput (revert_cmd ctx0 5 1 true false false "") = true :=
  revert_reset_nondefault_blocks_no_rpc ctx0 5 1 false false "" (by decide)

/-- Claim C3: with `force = true`, `disable_prompt = false` and any entered
response other than the literal `"y"`, revert returns normally: the trace is
exactly the confirmation prompt (so no RPC call and no further message) and no
exit code is raised. -/
theorem revert_force_declined_aborts_silently (ctx : CtxObj) (blocks new_blocks : Int)
    (reset : Bool) (user_input : String) (h : user_input ≠ "y") :
    revert_cmd ctx blocks new_blocks reset true false user_input =
      { events := [Event.prompt forcePromptMsg], exit := none } := by
  simp [revert_cmd, h]

/-- Witness for `revert_force_declined_aborts_silently` at input `"x"`. -/
theorem revert_force_declined_aborts_silently_witness :
    revert_cmd ctx0 3 2 false true false "x" =
      { events := [Event.prompt forcePromptMsg], exit := none } :=
  revert_force_declined_aborts_silently ctx0 3 2 false "x" (by decide)

/-- Claim C4: the stop command passes the status returned by `async_stop`
directly to `sys.exit`, so the process exit code equals that status, and a
non-success (nonzero) status yields a non-zero exit code. -/
theorem stop_exit_code_propagates (ctx : CtxObj) (daemon wallet : Bool) (stop_status : Int) :
    (stop_cmd ctx daemon wallet stop_status).exit = some stop_status ∧
    (stop_status ≠ 0 → (stop_cmd ctx daemon wallet stop_status).exit ≠ some 0) := by
  refine ⟨rfl, fun h hc => h ?_⟩
  simpa [stop_cmd] using hc

/-- Witness for `stop_exit_code_propagates` at status 1. -/
theorem stop_exit_code_propagates_witness :
    (stop_cmd ctx0 false false 1).exit = some 1 ∧
    (stop_cmd ctx0 false false 1).exit ≠ some 0 :=
  ⟨(stop_exit_code_propagates ctx0 false false 1).1,
   (stop_exit_code_propagates ctx0 false false 1).2 (by decide)⟩

/-- Claim C5: in both start and stop, the service group handed to the
lifecycle manager has `"simulator"` first, contains `"wallet"` exactly when
the wallet flag was given, and contains no other names. -/
theorem service_group_shape (ctx : CtxObj) (restart wallet daemon : Bool)
    (start_status : Option Int) (stop_status : Int) :
    ∃ g : List String,
      (start_cmd ctx restart wallet start_status).events =
        [Event.startServices ctx.root_path g restart] ∧
      (stop_cmd ctx daemon wallet stop_status).events =
        [Event.loadConfig ctx.root_path "config.yaml",
         Event.stopServices ctx.root_path g daemon] ∧
      g.head? = some "simulator" ∧
      g.contains "wallet" = wallet ∧
      g.all (fun x => x == "simulator" || x == "wallet") = true := by
  refine ⟨if wallet then ["simulator", "wallet"] else ["simulator"], rfl, rfl, ?_, ?_, ?_⟩ <;>
    cases wallet <;> decide

/-- Claim C6 counterexample: "the block count forwarded to the Farm action is
always positive" is false: `farm -b 0` forwards 0 unchanged (the command
performs no validation). -/
theorem farm_positive_blocks_cex :
    ¬ ∀ (blocks : Int) (nt : Bool) (ta : String) (n : Int),
        farmForwardedBlocks (farm_cmd ctx0 blocks nt ta) = some n → 0 < n := by
  intro h
  exact absurd (h 0 false "" 0 rfl) (by decide)

/-- Claim C6 (amended): the farm command forwards the supplied block count to
the Farm action unchanged (no positivity validation is performed, so zero or
negative values pass through), and the count defaults to 1 when the blocks
option is not supplied. -/
theorem farm_forwards_blocks_unchanged (ctx : CtxObj) (blocks : Int) (nt : Bool) (ta : String) :
    farmForwardedBlocks (farm_cmd ctx blocks nt ta) = some blocks ∧
    farm_blocks_default = 1 :=
  ⟨rfl, rfl⟩

/-- Claim C7: the farm command forwards `as_transaction_block` as the negation
of the `non_transaction` flag: `true` when the flag is absent (its default)
and `false` when it is given. -/
theorem farm_as_transaction_is_negation (ctx : CtxObj) (blocks : Int) (nt : Bool) (ta : String) :
    farmForwardedAsTransaction (farm_cmd ctx blocks nt ta) = some (!nt) ∧
    farmForwardedAsTransaction (farm_cmd ctx blocks false ta) = some true ∧
    farmForwardedAsTransaction (farm_cmd ctx blocks true ta) = some false := by
  refine ⟨?_, rfl, rfl⟩
  cases nt <;> rfl

/-- Claim C8: session-context resolution is a total pure function: the
resolved root path is the base root joined with the simulator name, the name
defaults to `"main"`, and the rpc-port override is stored unchanged (absent
when not supplied). -/
theorem sim_cmd_context_resolution (rpc_port : Option Int) (root_path simulator_name : String) :
    (sim_cmd rpc_port root_path simulator_name).root_path = root_path ++ "/" ++ simulator_name ∧
    (sim_cmd rpc_port root_path simulator_name).sim_name = simulator_name ∧
    (sim_cmd rpc_port root_path simulator_name).rpc_port = rpc_port ∧
    simulator_name_default = "main" ∧
    rpc_port_default = none :=
  ⟨rfl, rfl, rfl, rfl, rfl⟩

/-- Claim C9: in revert with `force = true` and `disable_prompt = false`, the
confirmation prompt is evaluated before the reset/blocks mutual-exclusion
check: the first trace event is always the prompt, and a declining answer
aborts silently even when `reset = true` with `blocks ≠ 1` would subsequently
be rejected. -/
theorem revert_prompt_precedes_reset_check (ctx : CtxObj) (blocks new_blocks : Int)
    (reset : Bool) (user_input : String) :
    (revert_cmd ctx blocks new_blocks reset true false user_input).events.head? =
      some (Event.prompt forcePromptMsg) ∧
    (user_input ≠ "y" →
      revert_cmd ctx blocks new_blocks reset true false user_input =
        { events := [Event.prompt forcePromptMsg], exit := none }) := by
  constructor
  · simp only [revert_cmd]
    split
    · simp
    · split <;> simp
  · intro h
    simp [revert_cmd, h]

/-- Witness for `revert_prompt_precedes_reset_check` at `reset = true`,
`blocks = 5` and the declining input `"n"`. -/
theorem revert_prompt_precedes_reset_check_witness :
    (revert_cmd ctx0 5 1 true true false "n").events.head? =
      some (Event.prompt forcePromptMsg) ∧
    revert_cmd ctx0 5 1 true true false "n" =
      { events := [Event.prompt forcePromptMsg], exit := none } :=
  ⟨(revert_prompt_precedes_reset_check ctx0 5 1 true "n").1,
   (revert_prompt_precedes_reset_check ctx0 5 1 true "n").2 (by decide)⟩

/-- Claim C10: the start command discards the status returned by
`start_async`: for every status it returns normally with no exit code, in
contrast to the stop command whose exit code is the manager's status. -/
theorem start_discards_lifecycle_status (ctx : CtxObj) (restart wallet daemon : Bool)
    (start_status : Option Int) (stop_status : Int) :
    (start_cmd ctx restart wallet start_status).exit = none ∧
    (stop_cmd ctx daemon wallet stop_status).exit = some stop_status :=
  ⟨rfl, rfl⟩
